import Mathlib

/-!
Verification of the IT-Ticketing-Portal backend (Flask/SQLAlchemy, Python).

This file gives a shallow embedding of the backend's data model and the
operations relevant to the stated properties, translated from
`src/backend/models.py`, `src/backend/app.py`, `src/backend/utils.py`,
`src/backend/forms.py` and `src/backend/tasks.py`.

Modelling conventions:
* `datetime` values are modelled as `Int` (UTC seconds); subtracting two of
  them yields the whole-second difference that the Python code obtains via
  `int(delta.total_seconds())`.
* Python `None` becomes `Option.none`; the truthiness tests `if x:` on
  optional values become `Option` matches, and truthiness on strings becomes
  an emptiness test.
* Character classes (`str.isupper`, `str.isdigit`) are modelled over the
  ASCII range, which is where the Python and Lean predicates agree.
* Database rows are records; queries over tables become functions over lists
  of records.
-/

namespace ITPortal

/-! ## Ticket statuses (models.py, `TICKET_STATUSES`) -/

def TICKET_STATUSES : List String :=
  ["Not Open Yet", "Open", "In Progress", "Re-Open", "Resolved", "Closed"]

/-! ## Python-style numeric formatting helpers

`pad2 n` is `strftime`-style zero padding to 2 digits (`%m`, `%y`);
`fmt04d n` is the Python format `f"{n:04d}"` on an integer. -/

def pad2 (n : Nat) : String :=
  if n < 10 then "0" ++ toString n else toString n

def padNat (width : Nat) (n : Nat) : String :=
  let s := toString n
  if s.length < width then String.mk (List.replicate (width - s.length) '0') ++ s else s

def fmt04d (n : Int) : String :=
  if n < 0 then "-" ++ padNat 3 n.natAbs else padNat 4 n.toNat

/-- `strftime('%Y%m')`: 4-digit year (for years 1..9999, `%Y` is the decimal
year, zero padded to 4 digits) followed by the 2-digit month. -/
def strftimeYYYYMM (year month : Nat) : String :=
  padNat 4 year ++ pad2 month

/-- `strftime('%y%m')`: 2-digit year (year mod 100, zero padded) followed by
the 2-digit month. -/
def strftimeYYMM (year month : Nat) : String :=
  pad2 (year % 100) ++ pad2 month

/-! ## Storage-layer ticket-number generator
(models.py, `generate_ticket_no`, the `before_insert` listener)

The listener counts the tickets whose `created_at` falls in the current
calendar month and emits `f"IT-{now.strftime('%Y%m')}-{seq:04d}"` with
`seq = count + 1`.  The month-count is abstracted as the `countThisMonth`
argument. -/

def generate_ticket_no (year month countThisMonth : Nat) : String :=
  "IT-" ++ strftimeYYYYMM year month ++ "-" ++ fmt04d (countThisMonth + 1)

/-! ## Route-layer ticket-number pre-computation
(app.py, `create_ticket`, lines 477-497)

The route computes `year_month = now.strftime('%y%m')`, fetches the most
recent ticket whose number matches `IT-{year_month}%` (abstracted as the
`lastTicketNo` argument), parses the numeric suffix after the final `-`
(Python `int(...)`, falling back to 1 on a parse failure), increments it,
and emits `f"IT-{year_month}-{next_number:04d}"`. -/

/-- Split a character list at every occurrence of `c` (the semantics of
Python `str.split(c)` restricted to a single-character separator). -/
def splitOnChar (c : Char) : List Char → List (List Char)
  | [] => [[]]
  | x :: xs =>
      match splitOnChar c xs with
      | [] => if x == c then [[], []] else [[x]]
      | y :: ys => if x == c then [] :: y :: ys else (x :: y) :: ys

def pySplit (c : Char) (s : String) : List String :=
  (splitOnChar c s.toList).map String.mk

/-- Value of a list of decimal digit characters. -/
def digitsVal (ds : List Char) : Nat :=
  ds.foldl (fun acc d => 10 * acc + (d.toNat - '0'.toNat)) 0

/-- Python `int(s)` on a trimmed string: an optional sign followed by at
least one decimal digit; anything else raises `ValueError` (`none` here). -/
def pythonInt? (s : String) : Option Int :=
  match s.toList with
  | [] => none
  | '-' :: ds =>
      if ds ≠ [] ∧ ds.all Char.isDigit then some (-(digitsVal ds : Int)) else none
  | '+' :: ds =>
      if ds ≠ [] ∧ ds.all Char.isDigit then some (digitsVal ds : Int) else none
  | ds =>
      if ds.all Char.isDigit then some (digitsVal ds : Int) else none

def route_next_number (lastTicketNo : Option String) : Int :=
  match lastTicketNo with
  | none => 1
  | some tno =>
      match pythonInt? ((pySplit '-' tno).getLastD "") with
      | some lastNumber => lastNumber + 1
      | none => 1

def create_ticket_no (year month : Nat) (lastTicketNo : Option String) : String :=
  "IT-" ++ strftimeYYMM year month ++ "-" ++ fmt04d (route_next_number lastTicketNo)

/-! ## The claimed ticket-number format

Written from the specification's words: `IT-YYYYMM-NNNN` where `YYYYMM` is
the 6-digit year+month of the creation date and `NNNN` is a 4-digit,
zero-padded sequence starting at `0001`. -/

def matchesTicketNoFormat (s : String) (year month : Nat) : Bool :=
  match pySplit '-' s with
  | [p, ym, nnnn] =>
      p == "IT" && ym == strftimeYYYYMM year month &&
        nnnn.length == 4 && nnnn.toList.all Char.isDigit && nnnn != "0000"
  | _ => false

/-! ## SLA computed properties (models.py, `Ticket.sla_seconds_left`,
`Ticket.sla_state`, `Ticket.is_open`)

Only the fields those properties read are carried. -/

structure SlaTicket where
  status : String
  due_date : Option Int
  closed_at : Option Int
  deriving DecidableEq, Repr

/-- `Ticket.sla_seconds_left` (models.py lines 179-187): `None` without a due
date or for a Closed/Resolved/Not Open Yet ticket, else the signed number of
whole seconds from `now` to the due date. -/
def sla_seconds_left (t : SlaTicket) (now : Int) : Option Int :=
  match t.due_date with
  | none => none
  | some due =>
      if t.status == "Closed" || t.status == "Resolved" || t.status == "Not Open Yet" then
        none
      else
        some (due - now)

/-- `Ticket.sla_state` (models.py lines 189-213). -/
def sla_state (t : SlaTicket) (now : Int) : Option String :=
  if t.status == "Closed" || t.status == "Resolved" then
    match t.closed_at, t.due_date with
    | some c, some d => if c ≤ d then some "Met" else some "Breached"
    | _, _ => some "Met"
  else
    match sla_seconds_left t now with
    | none => none
    | some secs =>
        if secs < 0 then some "Breached"
        else if secs ≤ 6 * 3600 then some "At Risk"
        else some "Met"

/-- Modelled from the claim's words, for comparison with `sla_state` (this is
the one definition in this file written from the specification rather than
from the source): for Closed/Resolved tickets the state is `Met` if
`closed_at ≤ due_date`, or if no `closed_at` is recorded (defaulting to
`Met`), and `Breached` otherwise; for other tickets it follows the
seconds-left thresholds. -/
def sla_state_claimed (t : SlaTicket) (now : Int) : Option String :=
  if t.status == "Closed" || t.status == "Resolved" then
    match t.closed_at with
    | none => some "Met"
    | some c =>
        match t.due_date with
        | some d => if c ≤ d then some "Met" else some "Breached"
        | none => some "Breached"
  else
    match sla_seconds_left t now with
    | none => none
    | some secs =>
        if secs < 0 then some "Breached"
        else if secs ≤ 6 * 3600 then some "At Risk"
        else some "Met"

/-- `Ticket.is_open` (models.py lines 232-235), verbatim: the status test is
negated with `not in`. -/
def is_open (t : SlaTicket) : Bool :=
  !(t.status == "Open" || t.status == "In Progress" || t.status == "Re-Open")

/-- `get_open_tickets` (models.py lines 548-550): the tickets whose status is
one of Open / In Progress / Re-Open. -/
def get_open_tickets (tickets : List SlaTicket) : List SlaTicket :=
  tickets.filter (fun t => t.status == "Open" || t.status == "In Progress" || t.status == "Re-Open")

/-! ## SLA compliance rate (utils.py, `calculate_sla_compliance_rate`)

The Python float arithmetic is modelled with `ℚ`; the computed values
(`met / closed * 100`) are stated with exact rational arithmetic. -/

def isClosedOrResolved (t : SlaTicket) : Bool :=
  t.status == "Closed" || t.status == "Resolved"

def calculate_sla_compliance_rate (now : Int) (tickets : List SlaTicket) : ℚ :=
  if tickets.isEmpty then 100
  else
    let closed_tickets := tickets.filter isClosedOrResolved
    if closed_tickets.isEmpty then 100
    else
      let met_sla := (closed_tickets.filter (fun t => sla_state t now == some "Met")).length
      ((met_sla : ℚ) / (closed_tickets.length : ℚ)) * 100

/-! ## Password validation (forms.py, `PasswordValidator`, `RegisterForm`)

Python `str.isupper` / `str.isdigit` are modelled over ASCII. -/

def pyIsUpper (c : Char) : Bool :=
  'A' ≤ c && c ≤ 'Z'

def pyIsDigit (c : Char) : Bool :=
  '0' ≤ c && c ≤ '9'

/-- `PasswordValidator.__call__` (forms.py lines 99-122): raises at the first
violated rule; `none` means the password passes. -/
def passwordValidatorError (minLength : Nat) (requireUpper requireNumbers requireSpecial : Bool)
    (password : String) : Option String :=
  if password.length < minLength then
    some ("Password must be at least " ++ toString minLength ++ " characters long.")
  else if requireUpper && !(password.toList.any pyIsUpper) then
    some "Password must contain at least one uppercase letter."
  else if requireNumbers && !(password.toList.any pyIsDigit) then
    some "Password must contain at least one number."
  else if requireSpecial && !(password.toList.any (fun c => "!@#$%^&*".toList.contains c)) then
    some "Password must contain at least one special character (!@#$%^&*)."
  else
    none

/-- The `RegisterForm.password` validator chain (forms.py lines 194-202) on a
non-empty submission: `Length(min=8)` followed by
`PasswordValidator(min_length=8, require_upper=True, require_numbers=True)`.
WTForms collects the errors of every failing validator on the field; the
constructor arguments are literals, independent of the configured
password-policy toggles. -/
def registerPasswordErrors (password : String) : List String :=
  (if password.length < 8 then ["Password must be at least 8 characters"] else [])
    ++ (passwordValidatorError 8 true true false password).toList

/-! ## Login (app.py, `login` route, lines 254-277)

`check_password_hash` is abstracted: the stored hash matches exactly the
password it was generated from, so a user record carries that password and
`check_password` compares with it. -/

structure AuthUser where
  email : String
  password_hash : String
  role : String
  active : Bool
  deriving DecidableEq, Repr

def check_password (u : AuthUser) (password : String) : Bool :=
  u.password_hash == password

/-- The user lookup of the login route: in admin mode the query is filtered
by `role="admin"` as well as the email. -/
def login_query (login_mode : String) (users : List AuthUser) (email : String) :
    Option AuthUser :=
  if login_mode == "admin" then
    users.find? (fun u => u.email == email && u.role == "admin")
  else
    users.find? (fun u => u.email == email)

inductive LoginOutcome
  | success (u : AuthUser)
  | failure (message : String)
  deriving DecidableEq, Repr

/-- The decision of the login route on a submitted form: success requires a
found user, a password-hash match, and the active flag; every other case
flashes the same generic message. -/
def login (login_mode : String) (users : List AuthUser) (email password : String) :
    LoginOutcome :=
  match login_query login_mode users email with
  | some u =>
      if check_password u password && u.active then
        .success u
      else
        .failure "Invalid credentials or restricted login."
  | none => .failure "Invalid credentials or restricted login."

/-! ## Email sending and logging (utils.py, `_log_email`, `send_async_email`,
`send_email`)

The mail transport is abstracted into three behaviours: the Flask-Mail
extension is missing, `mail.send` succeeds, or `mail.send` raises with some
message.  String truthiness (`a or b`) is an emptiness test. -/

def pyOrStr (a : Option String) (b : String) : String :=
  match a with
  | some s => if s == "" then b else s
  | none => b

def pyOrOpt (a b : Option String) : Option String :=
  match a with
  | some s => if s == "" then b else some s
  | none => b

/-- Python slicing `s[:n]` (by characters). -/
def pyTake (n : Nat) (s : String) : String :=
  String.mk (s.toList.take n)

structure EmailLogRow where
  to_email : String
  from_email : Option String
  subject : String
  body_preview : String
  status : String
  error_message : Option String
  deriving DecidableEq, Repr

/-- The preview computation of `_log_email` (utils.py lines 170-172):
`(preview_source[:480] + "…") if len(preview_source) > 480 else
preview_source`. -/
def bodyPreview (previewSource : String) : String :=
  if previewSource.length > 480 then pyTake 480 previewSource ++ "…" else previewSource

/-- `_log_email` (utils.py lines 155-190): builds the one `EmailLog` row.
The configured default sender is a parameter. -/
def log_email (defaultSender to_ subject : String) (htmlBody : Option String)
    (status : String) (extraError : Option String) : EmailLogRow :=
  { to_email := to_
    from_email := some defaultSender
    subject := subject
    body_preview := bodyPreview (pyOrStr htmlBody "")
    status := status
    error_message := extraError }

inductive MailTransport
  | uninitialized
  | sendOk
  | sendRaises (errText : String)
  deriving DecidableEq, Repr

/-- `send_async_email` (utils.py lines 197-243): returns the written log rows
and whether a transport send was attempted. -/
def send_async_email (defaultSender : String) (transport : MailTransport)
    (recipients : List String) (subject : String) (msgHtml : Option String)
    (msgBody : String) : List EmailLogRow × Bool :=
  match transport with
  | .uninitialized =>
      ([log_email defaultSender (String.intercalate "," recipients) subject
          (pyOrOpt msgHtml (some msgBody)) "FAILED" (some "Flask-Mail not initialized")],
        false)
  | .sendOk =>
      ([log_email defaultSender (String.intercalate "," recipients) subject
          (pyOrOpt msgHtml (some msgBody)) "SUCCESS" none],
        true)
  | .sendRaises e =>
      ([log_email defaultSender (String.intercalate "," recipients) subject
          (pyOrOpt msgHtml (some msgBody)) "FAILED" (some e)],
        true)

/-- `send_email` (utils.py lines 246-308): returns (queued?, log rows written,
transport send attempted?).  When the transport is missing it logs `FAILED`
immediately and returns `False`; otherwise it builds the message
(`msg.body = text_body or "Your email client does not support HTML."`,
`msg.html = html_body`) and hands it to `send_async_email`. -/
def send_email (defaultSender : String) (transport : MailTransport)
    (to_ subject : String) (htmlBody textBody : Option String) :
    Bool × List EmailLogRow × Bool :=
  match transport with
  | .uninitialized =>
      (false,
        [log_email defaultSender to_ subject (pyOrOpt htmlBody textBody)
            "FAILED" (some "Flask-Mail not initialized")],
        false)
  | t =>
      let msgBody := pyOrStr textBody "Your email client does not support HTML."
      let r := send_async_email defaultSender t [to_] subject htmlBody msgBody
      (true, r.1, r.2)

/-! ## Ticket-update routes (app.py, `process_assignee_update`, `ticket_view`,
`admin_ticket_update`)

The relevant fragment of each POST handler is embedded: the status update,
the priority update and the assignee update with its automatic status
transition, together with the ticket-history entries they append.  The
comment and attachment blocks that follow in the handlers touch neither the
ticket's fields nor these events and are not modelled.  History events are
modelled structurally rather than as the formatted message strings. -/

structure PUser where
  id : Nat
  name : String
  deriving DecidableEq, Repr

structure RouteTicket where
  status : String
  assignee_id : Option Nat
  assignee_name : Option String
  assign_status : Option String
  priority : String
  closed_at : Option Int
  deriving DecidableEq, Repr

inductive HistoryEvent
  | statusChanged (oldVal newVal : String)
  | priorityChanged (oldVal newVal : String)
  | assigneeChanged (oldVal newVal : String)
  | autoInProgress
  deriving DecidableEq, Repr

/-- Python `str.strip()` (ASCII whitespace). -/
def pyStrip (s : String) : String :=
  String.mk (((s.toList.dropWhile Char.isWhitespace).reverse.dropWhile Char.isWhitespace).reverse)

/-- `db.session.get(User, n)` for the integer parsed from the form value. -/
def getUserById (users : List PUser) (n : Int) : Option PUser :=
  if n < 0 then none else users.find? (fun u => u.id == n.toNat)

/-- `process_assignee_update` (app.py lines 163-209), including the
`safe_set_assignee_fields` write-back of `assignee_name` / `assign_status`.
Returns the updated ticket and the `(assignee_obj, new_display,
assign_status)` triple of the Python function. -/
def process_assignee_update (users : List PUser) (t : RouteTicket)
    (assignee_val assignee_custom : String) :
    RouteTicket × Option PUser × String × String :=
  let r : Option Nat × Option PUser × String × String :=
    if assignee_val == "" && assignee_custom == "" then
      (none, none, "Unassigned", "Unassigned")
    else if assignee_val == "assigned" then
      (none, none, "Assigned", "Assigned")
    else if assignee_val == "queue" then
      (none, none, "In Queue", "In Queue")
    else if assignee_custom != "" then
      (none, none, assignee_custom, "Custom")
    else
      match pythonInt? assignee_val with
      | some n =>
          match getUserById users n with
          | some u => (some u.id, some u, u.name, "Engineer")
          | none => (none, none, assignee_val, "Custom")
      | none => (none, none, assignee_val, "Custom")
  ({ t with
      assignee_id := r.1
      assignee_name := some r.2.2.1
      assign_status := some r.2.2.2 },
    r.2.1, r.2.2.1, r.2.2.2)

/-- The display name of the current assignee, as both routes compute it:
`T.assignee.name if T.assignee else (T.assignee_name or "Unassigned")`. -/
def assigneeDisplay (users : List PUser) (t : RouteTicket) : String :=
  match t.assignee_id.bind (fun i => users.find? (fun u => u.id == i)) with
  | some u => u.name
  | none => pyOrStr t.assignee_name "Unassigned"

/-- `str(T.assignee_id) if T.assignee_id else ""` — note the Python
truthiness: the id 0 also yields the empty string. -/
def currentAssigneeVal (t : RouteTicket) : String :=
  match t.assignee_id with
  | some i => if i = 0 then "" else toString i
  | none => ""

/-- The status-update step shared by both POST handlers: if a status value
was posted, is non-empty and differs, write it (setting `closed_at` for
Closed/Resolved) and append a history entry. -/
def statusUpdateStep (t : RouteTicket) (statusField : Option String) (now : Int) :
    RouteTicket × List HistoryEvent :=
  match statusField with
  | some ns =>
      if ns != "" && ns != t.status then
        ({ t with
            status := ns
            closed_at := if ns == "Closed" || ns == "Resolved" then some now else t.closed_at },
          [HistoryEvent.statusChanged t.status ns])
      else (t, [])
  | none => (t, [])

/-- The priority-update step of both handlers (admin only in `ticket_view`). -/
def priorityUpdateStep (t : RouteTicket) (priorityField : Option String) :
    RouteTicket × List HistoryEvent :=
  match priorityField with
  | some np =>
      if np != "" && np != t.priority then
        ({ t with priority := np }, [HistoryEvent.priorityChanged t.priority np])
      else (t, [])
  | none => (t, [])

/-- The POST branch of `ticket_view` (app.py lines 561-628) up to the
assignee block: status update (any allowed user), then — for admins —
priority update and the assignee update, which forces the status to
In Progress when, at that point, it is Open / Re-Open / Not Open Yet. -/
def ticket_view_post (users : List PUser) (isAdmin : Bool) (t : RouteTicket)
    (statusField priorityField assigneeField : Option String) (customRaw : String)
    (now : Int) : RouteTicket × List HistoryEvent :=
  let custom := pyStrip customRaw
  let s1 := statusUpdateStep t statusField now
  if isAdmin then
    let s2 := priorityUpdateStep s1.1 priorityField
    let t2 := s2.1
    let cond :=
      (match assigneeField with
        | some v => v != currentAssigneeVal t2
        | none => false) || custom != ""
    if cond then
      let oldD := assigneeDisplay users t2
      let r := process_assignee_update users t2
        (match assigneeField with | some v => v | none => "") custom
      let t3 := r.1
      if t3.status == "Open" || t3.status == "Re-Open" || t3.status == "Not Open Yet" then
        ({ t3 with status := "In Progress" },
          s1.2 ++ s2.2 ++ [HistoryEvent.assigneeChanged oldD r.2.2.1, HistoryEvent.autoInProgress])
      else
        (t3, s1.2 ++ s2.2 ++ [HistoryEvent.assigneeChanged oldD r.2.2.1])
    else (t2, s1.2 ++ s2.2)
  else (s1.1, s1.2)

/-- The body of `admin_ticket_update` (app.py lines 703-774) up to the
assignee block: the assignee update always runs, its history entry and the
automatic transition are guarded by a display change, and the automatic
transition additionally requires the status to be exactly `Open`. -/
def admin_ticket_update (users : List PUser) (t : RouteTicket)
    (statusField priorityField : Option String) (assigneeValRaw customRaw : String)
    (now : Int) : RouteTicket × List HistoryEvent :=
  let assignee_val := pyStrip assigneeValRaw
  let custom := pyStrip customRaw
  let s1 := statusUpdateStep t statusField now
  let s2 := priorityUpdateStep s1.1 priorityField
  let t2 := s2.1
  let oldD := assigneeDisplay users t2
  let r := process_assignee_update users t2 assignee_val custom
  let t3 := r.1
  if r.2.2.1 != oldD then
    if t3.status == "Open" then
      ({ t3 with status := "In Progress" },
        s1.2 ++ s2.2 ++ [HistoryEvent.assigneeChanged oldD r.2.2.1, HistoryEvent.autoInProgress])
    else
      (t3, s1.2 ++ s2.2 ++ [HistoryEvent.assigneeChanged oldD r.2.2.1])
  else (t3, s1.2 ++ s2.2)

/-! ## SLA breach-check job (tasks.py, `check_sla`, lines 92-212)

The job queries the tickets whose status is Open / In Progress / Pending,
and for each breached one checks the ticket's history for an entry with
event type `sla_breach_notified`; only when none exists and the recipient
set (assignee email, creator email, active-admin emails, deduplicated) is
non-empty does it send one alert email and then commit such a history
entry.  The history grows within the run (each notification is committed
before the next ticket is examined), which the fold below threads through
its accumulator.  `send_email` never raises (it reports failures through
its return value), so the history entry always follows the send. -/

structure CTicket where
  id : Nat
  sla : SlaTicket
  assigneeEmail : Option String
  userEmail : Option String
  deriving DecidableEq, Repr

structure HistEntry where
  ticket_id : Nat
  event : String
  event_type : Option String
  deriving DecidableEq, Repr

structure BreachEmail where
  ticket_id : Nat
  recipients : List String
  deriving DecidableEq, Repr

/-- The route's duplicate check: does the ticket's history already hold an
entry with `event_type == "sla_breach_notified"`? -/
def breachNotified (hist : List HistEntry) (tid : Nat) : Bool :=
  hist.any (fun h => h.ticket_id == tid && h.event_type == some "sla_breach_notified")

/-- A Python-truthy optional email contributes itself, otherwise nothing. -/
def truthyOpt (s : Option String) : List String :=
  match s with
  | some e => if e == "" then [] else [e]
  | none => []

/-- The recipient list of the breach alert: assignee email, creator email,
then the active admins' emails, deduplicated (`list(set(...))`; only
membership and emptiness of the result are relied upon). -/
def slaRecipients (admins : List String) (t : CTicket) : List String :=
  (truthyOpt t.assigneeEmail ++ truthyOpt t.userEmail ++ admins).dedup

def statusInCheckSlaFilter (s : String) : Bool :=
  s == "Open" || s == "In Progress" || s == "Pending"

/-- One iteration of the `for ticket in open_tickets` loop of `check_sla`:
the accumulator is the committed history plus the breach emails sent so
far. -/
def checkSlaStep (now : Int) (admins : List String)
    (acc : List HistEntry × List BreachEmail) (t : CTicket) :
    List HistEntry × List BreachEmail :=
  if sla_state t.sla now == some "Breached" then
    if breachNotified acc.1 t.id then acc
    else
      let recipients := slaRecipients admins t
      if recipients.isEmpty then acc
      else
        (acc.1 ++ [⟨t.id, "SLA breach notification sent", some "sla_breach_notified"⟩],
          acc.2 ++ [⟨t.id, recipients⟩])
  else acc

/-- The `check_sla` job: returns the history after the run and the breach
emails sent during it. -/
def check_sla (now : Int) (admins : List String) (tickets : List CTicket)
    (hist : List HistEntry) : List HistEntry × List BreachEmail :=
  (tickets.filter (fun t => statusInCheckSlaFilter t.sla.status)).foldl
    (checkSlaStep now admins) (hist, [])

/-- Number of breach emails sent for a given ticket id. -/
def emailsFor (tid : Nat) (emails : List BreachEmail) : Nat :=
  (emails.filter (fun e => e.ticket_id == tid)).length

end ITPortal

namespace ITPortal

/-- **C1.** The storage-layer generator does produce `IT-YYYYMM-NNNN`, but the
ticket-creation route computes the year-month prefix with `strftime('%y%m')`
(2-digit year), contradicting its own comments (`# Format: IT-YYYYMM-XXXX`,
`# e.g., '202512'`): for a ticket created in December 2025 with no earlier
tickets that month, the route emits `IT-2512-0001`, which does not match the
claimed 6-digit year+month format, while the storage layer emits
`IT-202512-0001`. -/
theorem C1_route_prefix_bug :
    generate_ticket_no 2025 12 0 = "IT-202512-0001"
    ∧ matchesTicketNoFormat (generate_ticket_no 2025 12 0) 2025 12 = true
    ∧ create_ticket_no 2025 12 none = "IT-2512-0001"
    ∧ matchesTicketNoFormat (create_ticket_no 2025 12 none) 2025 12 = false
    ∧ create_ticket_no 2025 12 none ≠ generate_ticket_no 2025 12 0 := by
  refine ⟨by decide, by decide, by decide, by decide, by decide⟩

/-- **C2 (counterexample).** The claim's reading of `sla_state` fails on the
code for a Closed ticket that records a `closed_at` but has no due date: the
code defaults to `Met` (the `if self.closed_at and self.due_date` guard falls
through to `return "Met"`), while the claim as stated yields `Breached`
(`closed_at` is recorded and is not `≤` any due date). -/
theorem C2_closed_without_due_counterexample :
    sla_state ⟨"Closed", none, some 100⟩ 0 = some "Met"
    ∧ sla_state_claimed ⟨"Closed", none, some 100⟩ 0 = some "Breached"
    ∧ sla_state ⟨"Closed", none, some 100⟩ 0
        ≠ sla_state_claimed ⟨"Closed", none, some 100⟩ 0 := by
  refine ⟨by decide, by decide, by decide⟩

/-- **C2 (amended).** For every ticket: `sla_seconds_left` has no value if
the ticket has no due date or its status is Closed, Resolved, or Not Open
Yet, and otherwise equals due date minus the current time in whole seconds;
`sla_state` for Closed/Resolved tickets is `Met` if `closed_at ≤ due_date`,
defaulting to `Met` whenever `closed_at` **or the due date** is missing, and
`Breached` otherwise; for all other tickets it is `Breached` when
seconds-left is negative, `At Risk` when `0 ≤ seconds-left ≤ 21600`, `Met`
when greater, and has no value when seconds-left has no value. -/
theorem C2_sla_fields (t : SlaTicket) (now : Int) :
    ((t.due_date = none ∨ t.status = "Closed" ∨ t.status = "Resolved"
        ∨ t.status = "Not Open Yet") → sla_seconds_left t now = none)
    ∧ (∀ d, t.due_date = some d → t.status ≠ "Closed" → t.status ≠ "Resolved" →
        t.status ≠ "Not Open Yet" → sla_seconds_left t now = some (d - now))
    ∧ ((t.status = "Closed" ∨ t.status = "Resolved") →
        (∀ c d, t.closed_at = some c → t.due_date = some d →
            sla_state t now = some (if c ≤ d then "Met" else "Breached"))
        ∧ ((t.closed_at = none ∨ t.due_date = none) → sla_state t now = some "Met"))
    ∧ (t.status ≠ "Closed" → t.status ≠ "Resolved" →
        (sla_seconds_left t now = none → sla_state t now = none)
        ∧ (∀ s, sla_seconds_left t now = some s →
            sla_state t now
              = some (if s < 0 then "Breached"
                  else if s ≤ 21600 then "At Risk" else "Met"))) := by
  obtain ⟨st, dd, ca⟩ := t
  refine ⟨?_, ?_, ?_, ?_⟩
  · rintro (hd | hs | hs | hs)
    · simp only at hd
      subst hd
      simp [sla_seconds_left]
    all_goals
      simp only at hs
      subst hs
      cases dd <;> simp [sla_seconds_left]
  · intro d hd h1 h2 h3
    simp only at hd h1 h2 h3
    simp [sla_seconds_left, hd, h1, h2, h3]
  · rintro (hs | hs) <;>
      (simp only at hs; subst hs;
       refine ⟨?_, ?_⟩
       · intro c d hc hd
         simp only at hc hd
         by_cases h : c ≤ d <;> simp [sla_state, hc, hd, h]
       · rintro (hc | hd)
         · simp only at hc
           cases dd <;> simp [sla_state, hc]
         · simp only at hd
           cases ca <;> simp [sla_state, hd])
  · intro h1 h2
    simp only at h1 h2
    refine ⟨?_, ?_⟩
    · intro hnone
      simp [sla_state, h1, h2, hnone]
    · intro s hs
      have h6 : (6 * 3600 : Int) = 21600 := by norm_num
      by_cases hneg : s < 0
      · simp [sla_state, h1, h2, hs, hneg]
      · by_cases hrisk : s ≤ 21600 <;>
          simp [sla_state, h1, h2, hs, hneg, h6, hrisk]

theorem C2_sla_fields_witness :
    sla_seconds_left ⟨"Open", some 100, none⟩ 40 = some 60
    ∧ sla_state ⟨"Open", some 100, none⟩ 40 = some "At Risk" := by
  have h := C2_sla_fields ⟨"Open", some 100, none⟩ 40
  have hsecs : sla_seconds_left ⟨"Open", some 100, none⟩ 40 = some 60 := by
    have := h.2.1 100 rfl (by decide) (by decide) (by decide)
    simpa using this
  refine ⟨hsecs, ?_⟩
  have hst := (h.2.2.2 (by decide) (by decide)).2 60 hsecs
  simpa using hst

/-- **C9.** `calculate_sla_compliance_rate` returns exactly 100 on an empty
collection and on any collection with no Closed/Resolved ticket, and
otherwise returns (number of Closed/Resolved tickets whose SLA state is
`Met`) / (number of Closed/Resolved tickets) × 100. -/
theorem C9_compliance_rate (now : Int) (tickets : List SlaTicket) :
    (tickets = [] → calculate_sla_compliance_rate now tickets = 100)
    ∧ ((∀ t ∈ tickets, t.status ≠ "Closed" ∧ t.status ≠ "Resolved") →
        calculate_sla_compliance_rate now tickets = 100)
    ∧ ((∃ t ∈ tickets, t.status = "Closed" ∨ t.status = "Resolved") →
        calculate_sla_compliance_rate now tickets
          = (((tickets.filter isClosedOrResolved).filter
                (fun t => sla_state t now == some "Met")).length : ℚ)
              / ((tickets.filter isClosedOrResolved).length : ℚ) * 100) := by
  refine ⟨?_, ?_, ?_⟩
  · rintro rfl
    simp [calculate_sla_compliance_rate]
  · intro h
    have hfil : tickets.filter isClosedOrResolved = [] := by
      rw [List.filter_eq_nil_iff]
      intro t ht
      have := h t ht
      simp [isClosedOrResolved, this.1, this.2]
    simp [calculate_sla_compliance_rate, hfil]
  · rintro ⟨t, ht, hst⟩
    have htm : t ∈ tickets.filter isClosedOrResolved := by
      rw [List.mem_filter]
      refine ⟨ht, ?_⟩
      rcases hst with h | h <;> simp [isClosedOrResolved, h]
    have hne : tickets.filter isClosedOrResolved ≠ [] := by
      intro hnil
      rw [hnil] at htm
      exact absurd htm (List.not_mem_nil t)
    have hne2 : tickets ≠ [] := by
      intro hnil
      subst hnil
      exact absurd ht (List.not_mem_nil t)
    simp only [calculate_sla_compliance_rate, List.isEmpty_iff, if_neg hne2, if_neg hne]

theorem C9_compliance_rate_witness :
    calculate_sla_compliance_rate 0
        [⟨"Closed", some 10, some 5⟩, ⟨"Closed", some 10, some 20⟩, ⟨"Open", some 10, none⟩]
      = 50 := by
  have h := (C9_compliance_rate 0
      [⟨"Closed", some 10, some 5⟩, ⟨"Closed", some 10, some 20⟩, ⟨"Open", some 10, none⟩]).2.2
      ⟨⟨"Closed", some 10, some 5⟩, by decide, Or.inl rfl⟩
  rw [h]
  have l1 : (List.filter isClosedOrResolved
      [(⟨"Closed", some 10, some 5⟩ : SlaTicket), ⟨"Closed", some 10, some 20⟩,
        ⟨"Open", some 10, none⟩]).length = 2 := by decide
  have l2 : ((List.filter isClosedOrResolved
      [(⟨"Closed", some 10, some 5⟩ : SlaTicket), ⟨"Closed", some 10, some 20⟩,
        ⟨"Open", some 10, none⟩]).filter (fun t => sla_state t 0 == some "Met")).length = 1 := by
    decide
  rw [l1, l2]
  norm_num

/-- **C10.** `Ticket.is_open` is true exactly when the status is *not* one of
Open / In Progress / Re-Open — so, within the six defined statuses, it is
true precisely for Closed, Resolved and Not Open Yet tickets — the inverse
of its name, while `get_open_tickets` selects precisely the statuses Open /
In Progress / Re-Open. -/
theorem C10_is_open_inverted (t : SlaTicket) (tickets : List SlaTicket) :
    (is_open t = true
      ↔ ¬(t.status = "Open" ∨ t.status = "In Progress" ∨ t.status = "Re-Open"))
    ∧ (t.status ∈ TICKET_STATUSES →
        (is_open t = true
          ↔ (t.status = "Closed" ∨ t.status = "Resolved" ∨ t.status = "Not Open Yet")))
    ∧ (t ∈ get_open_tickets tickets
        ↔ t ∈ tickets
          ∧ (t.status = "Open" ∨ t.status = "In Progress" ∨ t.status = "Re-Open")) := by
  obtain ⟨st, dd, ca⟩ := t
  have h1 : is_open ⟨st, dd, ca⟩ = true
      ↔ ¬(st = "Open" ∨ st = "In Progress" ∨ st = "Re-Open") := by
    simp [is_open, not_or, and_assoc]
  refine ⟨h1, ?_, ?_⟩
  · intro hmem
    simp only [TICKET_STATUSES, List.mem_cons, List.not_mem_nil, or_false] at hmem
    rw [h1]
    dsimp only
    rcases hmem with h | h | h | h | h | h <;> subst h <;> decide
  · simp [get_open_tickets, List.mem_filter, or_assoc]

theorem strLength_append (a b : String) : (a ++ b).length = a.length + b.length := by
  cases a with
  | mk d1 =>
      cases b with
      | mk d2 =>
          show (String.mk (d1 ++ d2)).length = _
          simp [String.length]

theorem strLength_pyTake (n : Nat) (s : String) : (pyTake n s).length = min n s.length := by
  cases s with
  | mk d =>
      show (String.mk (d.take n)).length = _
      simp [String.length, String.toList]

/-- **C7.** The registration password validation rejects a password exactly
when it is shorter than 8 characters, or has no uppercase letter, or has no
digit; the rules are literal arguments of the form's validator (the length
rule fires for every toggle combination), the reported error names the
violated rule, and every password of length at least 8 with an uppercase
letter and a digit passes. -/
theorem C7_password_policy (p : String) :
    (registerPasswordErrors p = []
      ↔ (8 ≤ p.length ∧ p.toList.any pyIsUpper = true ∧ p.toList.any pyIsDigit = true))
    ∧ (p.length < 8 →
        "Password must be at least 8 characters" ∈ registerPasswordErrors p)
    ∧ (8 ≤ p.length → p.toList.any pyIsUpper = false →
        registerPasswordErrors p = ["Password must contain at least one uppercase letter."])
    ∧ (8 ≤ p.length → p.toList.any pyIsUpper = true → p.toList.any pyIsDigit = false →
        registerPasswordErrors p = ["Password must contain at least one number."])
    ∧ (∀ u n s : Bool, p.length < 8 →
        passwordValidatorError 8 u n s p
          = some "Password must be at least 8 characters long.") := by
  refine ⟨?_, ?_, ?_, ?_, ?_⟩
  · by_cases hl : p.length < 8
    · simp [registerPasswordErrors, passwordValidatorError, hl, not_le_of_lt hl]
    · simp only [registerPasswordErrors, passwordValidatorError, if_neg hl, String.toList,
        List.nil_append]
      cases hu : p.data.any pyIsUpper <;> cases hn : p.data.any pyIsDigit <;>
        simp [hu, hn, le_of_not_lt hl]
  · intro hl
    simp [registerPasswordErrors, hl]
  · intro h8 hu
    have hl : ¬p.length < 8 := by omega
    simp only [String.toList] at hu
    simp only [registerPasswordErrors, passwordValidatorError, if_neg hl, String.toList,
      List.nil_append]
    simp [hu]
  · intro h8 hu hn
    have hl : ¬p.length < 8 := by omega
    simp only [String.toList] at hu hn
    simp only [registerPasswordErrors, passwordValidatorError, if_neg hl, String.toList,
      List.nil_append]
    simp [hu, hn]
  · intro u n s hl
    simp [passwordValidatorError, hl]
    decide

theorem C7_password_policy_witness :
    registerPasswordErrors "Passw0rd" = []
    ∧ registerPasswordErrors "password"
        = ["Password must contain at least one uppercase letter."] := by
  refine ⟨(C7_password_policy "Passw0rd").1.mpr ⟨by decide, by decide, by decide⟩, ?_⟩
  exact (C7_password_policy "password").2.2.1 (by decide) (by decide)

theorem login_query_email {mode : String} {users : List AuthUser} {email : String}
    {u : AuthUser} (h : login_query mode users email = some u) : u.email = email := by
  unfold login_query at h
  split at h
  · have hp := List.find?_some h
    simp only [Bool.and_eq_true, beq_iff_eq] at hp
    exact hp.1
  · have hp := List.find?_some h
    simpa using hp

/-- **C8.** A login attempt succeeds only when the route's user lookup finds
an account with the submitted email, the submitted password matches the
stored hash and the account's active flag is set; a found account whose
active flag is false (even with the correct password), like a missing
account, yields the generic invalid-credentials failure. -/
theorem C8_login_requires_active (mode : String) (users : List AuthUser)
    (email password : String) :
    (∀ u, login mode users email password = .success u →
        login_query mode users email = some u
        ∧ u.email = email
        ∧ check_password u password = true
        ∧ u.active = true)
    ∧ (∀ u, login_query mode users email = some u → u.active = false →
        login mode users email password
          = .failure "Invalid credentials or restricted login.")
    ∧ (login_query mode users email = none →
        login mode users email password
          = .failure "Invalid credentials or restricted login.") := by
  refine ⟨?_, ?_, ?_⟩
  · intro u hsucc
    cases hq : login_query mode users email with
    | none => simp [login, hq] at hsucc
    | some v =>
        by_cases hc : check_password v password && v.active
        · have hv : v = u := by
            simp [login, hq, hc] at hsucc
            exact hsucc
          subst hv
          have hc' := hc
          simp only [Bool.and_eq_true] at hc'
          exact ⟨rfl, login_query_email hq, hc'.1, hc'.2⟩
        · simp [login, hq, hc] at hsucc
  · intro u hq hinactive
    simp [login, hq, hinactive]
  · intro hq
    simp [login, hq]

theorem C8_login_requires_active_witness :
    login "user" [⟨"amy@portal.com", "Secret1A", "user", false⟩]
        "amy@portal.com" "Secret1A"
      = .failure "Invalid credentials or restricted login." := by
  exact (C8_login_requires_active "user"
      [⟨"amy@portal.com", "Secret1A", "user", false⟩] "amy@portal.com" "Secret1A").2.1
    ⟨"amy@portal.com", "Secret1A", "user", false⟩ (by decide) rfl

/-- **C5.** Every call to `send_email` writes exactly one `EmailLog` row; the
row's status is `SUCCESS` exactly when the transport send succeeded and
`FAILED` otherwise — in particular, with an uninitialized mail transport the
row is `FAILED` with the transport-unavailable error and no transport send is
attempted; and every logged body preview is the preview of its source body,
which equals the body when it has at most 480 characters and otherwise is
its first 480 characters followed by the one-character ellipsis marker, for
a total of at most 481 characters. -/
theorem C5_email_log_row (defaultSender : String) (transport : MailTransport)
    (to_ subject : String) (htmlBody textBody : Option String) :
    ((send_email defaultSender transport to_ subject htmlBody textBody).2.1.length = 1)
    ∧ (∀ row ∈ (send_email defaultSender transport to_ subject htmlBody textBody).2.1,
        row.status = if transport = .sendOk then "SUCCESS" else "FAILED")
    ∧ (transport = .uninitialized →
        (send_email defaultSender transport to_ subject htmlBody textBody).2.2 = false
        ∧ ∀ row ∈ (send_email defaultSender transport to_ subject htmlBody textBody).2.1,
            row.error_message = some "Flask-Mail not initialized")
    ∧ (∀ row ∈ (send_email defaultSender transport to_ subject htmlBody textBody).2.1,
        ∃ src, row.body_preview = bodyPreview src)
    ∧ (∀ src : String,
        (src.length ≤ 480 → bodyPreview src = src)
        ∧ (480 < src.length →
            bodyPreview src = pyTake 480 src ++ "…" ∧ (bodyPreview src).length = 481)) := by
  refine ⟨?_, ?_, ?_, ?_, ?_⟩
  · cases transport <;> simp [send_email, send_async_email]
  · intro row hrow
    cases transport <;>
      simp_all [send_email, send_async_email, log_email]
  · rintro rfl
    refine ⟨rfl, ?_⟩
    intro row hrow
    simp_all [send_email, log_email]
  · intro row hrow
    cases transport <;>
      (simp only [send_email, send_async_email, log_email, List.mem_singleton] at hrow;
       subst hrow;
       exact ⟨_, rfl⟩)
  · intro src
    refine ⟨?_, ?_⟩
    · intro hle
      simp [bodyPreview, Nat.not_lt.mpr hle]
    · intro hgt
      refine ⟨by simp [bodyPreview, hgt], ?_⟩
      simp only [bodyPreview, if_pos hgt, strLength_append, strLength_pyTake]
      have h480 : min 480 src.length = 480 := Nat.min_eq_left (le_of_lt hgt)
      rw [h480]
      rfl

theorem C5_email_log_row_witness :
    (send_email "noreply@portal.com" .uninitialized "user@x.com" "Hi" (some "body") none).2.1.length
      = 1
    ∧ bodyPreview "short body" = "short body" := by
  have h := C5_email_log_row "noreply@portal.com" .uninitialized "user@x.com" "Hi"
      (some "body") none
  exact ⟨h.1, (h.2.2.2.2 "short body").1 (by decide)⟩

/-- **C4.** `process_assignee_update` resolves its `(value, custom text)`
input to exactly five outcomes, tried in this order: `("", "")` clears the
structured assignee with display/tag `Unassigned`; the literal `assigned`
clears it with display/tag `Assigned`; the literal `queue` clears it with
display `In Queue`/tag `In Queue`; any remaining non-empty custom text
clears it and becomes the display with tag `Custom`; otherwise a value
parsing as an existing user's numeric id sets that user with their name and
tag `Engineer`, and any other value clears the assignee and is used
verbatim as display with tag `Custom`. -/
theorem C4_assignee_resolution (users : List PUser) (t : RouteTicket) (v c : String) :
    (v = "" → c = "" →
        process_assignee_update users t v c
          = ({ t with
                assignee_id := none
                assignee_name := some "Unassigned"
                assign_status := some "Unassigned" }, none, "Unassigned", "Unassigned"))
    ∧ (v = "assigned" →
        process_assignee_update users t v c
          = ({ t with
                assignee_id := none
                assignee_name := some "Assigned"
                assign_status := some "Assigned" }, none, "Assigned", "Assigned"))
    ∧ (v = "queue" →
        process_assignee_update users t v c
          = ({ t with
                assignee_id := none
                assignee_name := some "In Queue"
                assign_status := some "In Queue" }, none, "In Queue", "In Queue"))
    ∧ (v ≠ "assigned" → v ≠ "queue" → c ≠ "" →
        process_assignee_update users t v c
          = ({ t with
                assignee_id := none
                assignee_name := some c
                assign_status := some "Custom" }, none, c, "Custom"))
    ∧ (v ≠ "" → v ≠ "assigned" → v ≠ "queue" → c = "" →
        (∀ n u, pythonInt? v = some n → getUserById users n = some u →
            process_assignee_update users t v c
              = ({ t with
                    assignee_id := some u.id
                    assignee_name := some u.name
                    assign_status := some "Engineer" }, some u, u.name, "Engineer"))
        ∧ (∀ n, pythonInt? v = some n → getUserById users n = none →
            process_assignee_update users t v c
              = ({ t with
                    assignee_id := none
                    assignee_name := some v
                    assign_status := some "Custom" }, none, v, "Custom"))
        ∧ (pythonInt? v = none →
            process_assignee_update users t v c
              = ({ t with
                    assignee_id := none
                    assignee_name := some v
                    assign_status := some "Custom" }, none, v, "Custom"))) := by
  refine ⟨?_, ?_, ?_, ?_, ?_⟩
  · rintro rfl rfl
    simp [process_assignee_update]
  · rintro rfl
    simp [process_assignee_update]
  · rintro rfl
    simp [process_assignee_update]
  · intro hv2 hv3 hc
    by_cases hv1 : v = ""
    · subst hv1
      simp [process_assignee_update, beq_eq_false_iff_ne.mpr hc, bne_iff_ne, hc]
    · simp [process_assignee_update, beq_eq_false_iff_ne.mpr hc, bne_iff_ne, hc,
        beq_eq_false_iff_ne.mpr hv1, beq_eq_false_iff_ne.mpr hv2, beq_eq_false_iff_ne.mpr hv3]
  · rintro hv1 hv2 hv3 rfl
    refine ⟨?_, ?_, ?_⟩
    · intro n u hn hu
      simp [process_assignee_update, beq_eq_false_iff_ne.mpr hv1,
        beq_eq_false_iff_ne.mpr hv2, beq_eq_false_iff_ne.mpr hv3, hn, hu]
    · intro n hn hu
      simp [process_assignee_update, beq_eq_false_iff_ne.mpr hv1,
        beq_eq_false_iff_ne.mpr hv2, beq_eq_false_iff_ne.mpr hv3, hn, hu]
    · intro hn
      simp [process_assignee_update, beq_eq_false_iff_ne.mpr hv1,
        beq_eq_false_iff_ne.mpr hv2, beq_eq_false_iff_ne.mpr hv3, hn]

theorem C4_assignee_resolution_witness :
    process_assignee_update [⟨7, "Grace"⟩] ⟨"Open", none, none, none, "Medium", none⟩ "7" ""
      = (⟨"Open", some 7, some "Grace", some "Engineer", "Medium", none⟩,
          some ⟨7, "Grace"⟩, "Grace", "Engineer") := by
  have h := (C4_assignee_resolution [⟨7, "Grace"⟩]
      ⟨"Open", none, none, none, "Medium", none⟩ "7" "").2.2.2.2
      (by decide) (by decide) (by decide) rfl
  exact h.1 7 ⟨7, "Grace"⟩ (by decide) (by decide)

theorem process_assignee_update_status (users : List PUser) (t : RouteTicket)
    (v c : String) : (process_assignee_update users t v c).1.status = t.status := rfl

/-- **C3 (counterexample).** In the admin ticket-update route, newly
assigning a user to a ticket whose prior status is `Re-Open` does *not*
force the status to In Progress: the route only checks
`if ticket.status == "Open"`.  With one user (id 7) and a `Re-Open` ticket
with no assignee, posting assignee id `7` records the assignee change but
leaves the status `Re-Open` and appends no auto-status-change entry. -/
theorem C3_admin_route_counterexample :
    (admin_ticket_update [⟨7, "Grace"⟩] ⟨"Re-Open", none, none, none, "Medium", none⟩
        none none "7" "" 0).1.status = "Re-Open"
    ∧ HistoryEvent.assigneeChanged "Unassigned" "Grace"
        ∈ (admin_ticket_update [⟨7, "Grace"⟩] ⟨"Re-Open", none, none, none, "Medium", none⟩
            none none "7" "" 0).2
    ∧ HistoryEvent.autoInProgress
        ∉ (admin_ticket_update [⟨7, "Grace"⟩] ⟨"Re-Open", none, none, none, "Medium", none⟩
            none none "7" "" 0).2 := by
  refine ⟨by decide, by decide, by decide⟩

/-- **C3 (amended).** With no simultaneous status submission: in the
self-service route (`ticket_view`), whenever the assignee-update block runs
(the posted assignee value differs from the current one, or a custom name is
posted) and the prior status is Open / Re-Open / Not Open Yet, the status is
forced to In Progress and an auto-status-change history entry is appended;
in the admin route (`admin_ticket_update`) the forcing happens only when the
resolved display name changed **and** the prior status is exactly `Open` —
a ticket in any other status keeps its status and gets no auto entry
there. -/
theorem C3_auto_in_progress (users : List PUser) (t : RouteTicket)
    (assigneeField : Option String) (customRaw avalRaw : String) (now : Int) :
    (((∃ v, assigneeField = some v ∧ v ≠ currentAssigneeVal t)
        ∨ pyStrip customRaw ≠ "") →
      (t.status = "Open" ∨ t.status = "Re-Open" ∨ t.status = "Not Open Yet") →
      (ticket_view_post users true t none none assigneeField customRaw now).1.status
          = "In Progress"
      ∧ HistoryEvent.autoInProgress
          ∈ (ticket_view_post users true t none none assigneeField customRaw now).2)
    ∧ ((process_assignee_update users t (pyStrip avalRaw) (pyStrip customRaw)).2.2.1
          ≠ assigneeDisplay users t →
        t.status = "Open" →
        (admin_ticket_update users t none none avalRaw customRaw now).1.status
            = "In Progress"
        ∧ HistoryEvent.autoInProgress
            ∈ (admin_ticket_update users t none none avalRaw customRaw now).2)
    ∧ (t.status ≠ "Open" →
        (admin_ticket_update users t none none avalRaw customRaw now).1.status = t.status
        ∧ HistoryEvent.autoInProgress
            ∉ (admin_ticket_update users t none none avalRaw customRaw now).2) := by
  refine ⟨?_, ?_, ?_⟩
  · intro htrig hstat
    simp only [ticket_view_post, statusUpdateStep, priorityUpdateStep]
    split_ifs with hadmin h1 h2
    · exact ⟨rfl, by simp⟩
    · exfalso
      rw [process_assignee_update_status] at h2
      rcases hstat with h | h | h <;> simp [h] at h2
    · exfalso
      apply h1
      rcases htrig with ⟨v, hv, hne⟩ | hc
      · subst hv
        simp [bne_iff_ne, hne]
      · simp [bne_iff_ne, hc]
    all_goals simp_all
  · intro hchange hopen
    simp only [admin_ticket_update, statusUpdateStep, priorityUpdateStep]
    split_ifs with h1 h2
    · exact ⟨rfl, by simp⟩
    · exfalso
      rw [process_assignee_update_status] at h2
      exact h2 (by simp [hopen])
    · exfalso
      exact h1 (by simp [bne_iff_ne, hchange])
  · intro hopen
    simp only [admin_ticket_update, statusUpdateStep, priorityUpdateStep]
    split_ifs with h1 h2
    · exfalso
      rw [process_assignee_update_status] at h2
      exact hopen (by simpa using h2)
    · exact ⟨process_assignee_update_status users t _ _, by simp⟩
    · exact ⟨process_assignee_update_status users t _ _, by simp⟩

theorem C3_auto_in_progress_witness :
    (ticket_view_post [⟨7, "Grace"⟩] true ⟨"Open", none, none, none, "Medium", none⟩
        none none (some "7") "" 0).1.status = "In Progress"
    ∧ (admin_ticket_update [⟨7, "Grace"⟩] ⟨"Open", none, none, none, "Medium", none⟩
        none none "7" "" 0).1.status = "In Progress" := by
  have h := C3_auto_in_progress [⟨7, "Grace"⟩] ⟨"Open", none, none, none, "Medium", none⟩
      (some "7") "" "7" 0
  exact ⟨(h.1 (Or.inl ⟨"7", rfl, by decide⟩) (Or.inl rfl)).1,
    (h.2.1 (by decide) rfl).1⟩

theorem emailsFor_append (tid : Nat) (es1 es2 : List BreachEmail) :
    emailsFor tid (es1 ++ es2) = emailsFor tid es1 + emailsFor tid es2 := by
  simp [emailsFor, List.filter_append]

theorem breachNotified_append (hist extra : List HistEntry) (tid : Nat) :
    breachNotified (hist ++ extra) tid
      = (breachNotified hist tid || breachNotified extra tid) := by
  simp [breachNotified, List.any_append]

theorem checkSlaStep_cases (now : Int) (admins : List String)
    (acc : List HistEntry × List BreachEmail) (t : CTicket) :
    checkSlaStep now admins acc t = acc
    ∨ (sla_state t.sla now = some "Breached"
        ∧ breachNotified acc.1 t.id = false
        ∧ slaRecipients admins t ≠ []
        ∧ checkSlaStep now admins acc t
            = (acc.1 ++ [⟨t.id, "SLA breach notification sent", some "sla_breach_notified"⟩],
                acc.2 ++ [⟨t.id, slaRecipients admins t⟩])) := by
  simp only [checkSlaStep]
  split_ifs with h1 h2 h3
  · exact Or.inl rfl
  · exact Or.inl rfl
  · refine Or.inr ⟨by simpa using h1, by simpa using h2, ?_, rfl⟩
    intro hnil
    rw [hnil] at h3
    exact h3 rfl
  · exact Or.inl rfl

theorem checkSla_foldl_notified (now : Int) (admins : List String) (tid : Nat) :
    ∀ (l : List CTicket) (h : List HistEntry) (es : List BreachEmail),
      breachNotified h tid = true →
      breachNotified (l.foldl (checkSlaStep now admins) (h, es)).1 tid = true
      ∧ emailsFor tid (l.foldl (checkSlaStep now admins) (h, es)).2 = emailsFor tid es := by
  intro l
  induction l with
  | nil =>
      intro h es hn
      exact ⟨hn, rfl⟩
  | cons u us ih =>
      intro h es hn
      rw [List.foldl_cons]
      rcases checkSlaStep_cases now admins (h, es) u with heq | ⟨hb, hnu, hrec, heq⟩
      · rw [heq]
        exact ih h es hn
      · rw [heq]
        have hne : u.id ≠ tid := by
          intro hid
          rw [hid, hn] at hnu
          exact Bool.true_eq_false.mp hnu
        have hn2 : breachNotified
            (h ++ [⟨u.id, "SLA breach notification sent", some "sla_breach_notified"⟩])
            tid = true := by
          rw [breachNotified_append, hn]
          rfl
        have hrest := ih
          (h ++ [⟨u.id, "SLA breach notification sent", some "sla_breach_notified"⟩])
          (es ++ [⟨u.id, slaRecipients admins u⟩]) hn2
        refine ⟨hrest.1, ?_⟩
        rw [hrest.2, emailsFor_append]
        have hzero : emailsFor tid [⟨u.id, slaRecipients admins u⟩] = 0 := by
          simp [emailsFor, beq_eq_false_iff_ne.mpr hne]
        omega

theorem checkSla_foldl_no_tid (now : Int) (admins : List String) (tid : Nat) :
    ∀ (l : List CTicket) (h : List HistEntry) (es : List BreachEmail),
      (∀ u ∈ l, u.id ≠ tid) →
      breachNotified (l.foldl (checkSlaStep now admins) (h, es)).1 tid
          = breachNotified h tid
      ∧ emailsFor tid (l.foldl (checkSlaStep now admins) (h, es)).2 = emailsFor tid es := by
  intro l
  induction l with
  | nil =>
      intro h es _
      exact ⟨rfl, rfl⟩
  | cons u us ih =>
      intro h es hno
      rw [List.foldl_cons]
      have hu : u.id ≠ tid := hno u (List.mem_cons_self u us)
      have hus : ∀ w ∈ us, w.id ≠ tid := fun w hw => hno w (List.mem_cons_of_mem u hw)
      rcases checkSlaStep_cases now admins (h, es) u with heq | ⟨hb, hnu, hrec, heq⟩
      · rw [heq]
        exact ih h es hus
      · rw [heq]
        have hrest := ih
          (h ++ [⟨u.id, "SLA breach notification sent", some "sla_breach_notified"⟩])
          (es ++ [⟨u.id, slaRecipients admins u⟩]) hus
        refine ⟨?_, ?_⟩
        · rw [hrest.1, breachNotified_append]
          have hz : breachNotified
              [⟨u.id, "SLA breach notification sent", some "sla_breach_notified"⟩] tid
                = false := by
            simp [breachNotified, beq_eq_false_iff_ne.mpr hu]
          rw [hz, Bool.or_false]
        · rw [hrest.2, emailsFor_append]
          have hz : emailsFor tid [⟨u.id, slaRecipients admins u⟩] = 0 := by
            simp [emailsFor, beq_eq_false_iff_ne.mpr hu]
          omega

theorem checkSla_foldl_sent_recorded (now : Int) (admins : List String) (tid : Nat) :
    ∀ (l : List CTicket) (h : List HistEntry) (es : List BreachEmail),
      emailsFor tid es < emailsFor tid (l.foldl (checkSlaStep now admins) (h, es)).2 →
      breachNotified (l.foldl (checkSlaStep now admins) (h, es)).1 tid = true := by
  intro l
  induction l with
  | nil =>
      intro h es hlt
      exact absurd hlt (lt_irrefl _)
  | cons u us ih =>
      intro h es hlt
      rw [List.foldl_cons] at hlt ⊢
      rcases checkSlaStep_cases now admins (h, es) u with heq | ⟨hb, hnu, hrec, heq⟩
      · rw [heq] at hlt ⊢
        exact ih h es hlt
      · rw [heq] at hlt ⊢
        by_cases hid : u.id = tid
        · have hn2 : breachNotified
              (h ++ [⟨u.id, "SLA breach notification sent", some "sla_breach_notified"⟩])
              tid = true := by
            simp [breachNotified_append, breachNotified, hid]
          exact (checkSla_foldl_notified now admins tid us _ _ hn2).1
        · have hes : emailsFor tid (es ++ [⟨u.id, slaRecipients admins u⟩])
              = emailsFor tid es := by
            rw [emailsFor_append]
            simp [emailsFor, beq_eq_false_iff_ne.mpr hid]
          apply ih
          rw [hes]
          exact hlt

/-- **C6.** The SLA breach-check job sends at most one alert per breach
episode: a run sends no breach email for any ticket whose history already
holds an `sla_breach_notified` entry; every breach email a run sends is
followed by such an entry in the resulting history; and for a breached,
eligible ticket with a non-empty recipient set and no prior entry, two
successive runs against the unchanged ticket send exactly one email — the
first run sends it and records the entry, the second run finds the entry
and sends nothing. -/
theorem C6_breach_alert_once (now1 now2 : Int) (admins : List String)
    (tickets l1 l2 : List CTicket) (hist : List HistEntry) (t : CTicket) :
    (∀ tid, breachNotified hist tid = true →
        emailsFor tid (check_sla now1 admins tickets hist).2 = 0)
    ∧ (∀ tid, 0 < emailsFor tid (check_sla now1 admins tickets hist).2 →
        breachNotified (check_sla now1 admins tickets hist).1 tid = true)
    ∧ (tickets.filter (fun u => statusInCheckSlaFilter u.sla.status) = l1 ++ t :: l2 →
        (∀ u ∈ l1, u.id ≠ t.id) →
        (∀ u ∈ l2, u.id ≠ t.id) →
        sla_state t.sla now1 = some "Breached" →
        sla_state t.sla now2 = some "Breached" →
        slaRecipients admins t ≠ [] →
        breachNotified hist t.id = false →
        emailsFor t.id (check_sla now1 admins tickets hist).2 = 1
        ∧ emailsFor t.id
            (check_sla now2 admins tickets (check_sla now1 admins tickets hist).1).2 = 0) := by
  refine ⟨?_, ?_, ?_⟩
  · intro tid hn
    exact (checkSla_foldl_notified now1 admins tid
      (tickets.filter (fun u => statusInCheckSlaFilter u.sla.status)) hist [] hn).2
  · intro tid hpos
    exact checkSla_foldl_sent_recorded now1 admins tid
      (tickets.filter (fun u => statusInCheckSlaFilter u.sla.status)) hist [] hpos
  · intro hdec h1 h2 hb1 hb2 hrec hnot
    have hA := checkSla_foldl_no_tid now1 admins t.id l1 hist [] h1
    have c2 : breachNotified
        (l1.foldl (checkSlaStep now1 admins) (hist, [])).1 t.id = false := by
      rw [hA.1, hnot]
    have hstep : checkSlaStep now1 admins
        (l1.foldl (checkSlaStep now1 admins) (hist, [])) t
        = ((l1.foldl (checkSlaStep now1 admins) (hist, [])).1
              ++ [⟨t.id, "SLA breach notification sent", some "sla_breach_notified"⟩],
            (l1.foldl (checkSlaStep now1 admins) (hist, [])).2
              ++ [⟨t.id, slaRecipients admins t⟩]) := by
      rcases checkSlaStep_cases now1 admins
          (l1.foldl (checkSlaStep now1 admins) (hist, [])) t with heq | ⟨_, _, _, heq⟩
      · exfalso
        have : checkSlaStep now1 admins
            (l1.foldl (checkSlaStep now1 admins) (hist, [])) t
            ≠ l1.foldl (checkSlaStep now1 admins) (hist, []) := by
          simp only [checkSlaStep]
          rw [if_pos (by simp [hb1] : (sla_state t.sla now1 == some "Breached") = true),
            if_neg (by rw [c2]; simp : ¬breachNotified
              (l1.foldl (checkSlaStep now1 admins) (hist, [])).1 t.id = true),
            if_neg (fun hE => hrec (List.isEmpty_iff.mp hE))]
          intro hcontra
          have := congrArg (fun p => emailsFor t.id p.2) hcontra
          simp only [emailsFor_append] at this
          simp [emailsFor] at this
        exact this heq
      · exact heq
    have hrun1 : check_sla now1 admins tickets hist
        = l2.foldl (checkSlaStep now1 admins)
            ((l1.foldl (checkSlaStep now1 admins) (hist, [])).1
                ++ [⟨t.id, "SLA breach notification sent", some "sla_breach_notified"⟩],
              (l1.foldl (checkSlaStep now1 admins) (hist, [])).2
                ++ [⟨t.id, slaRecipients admins t⟩]) := by
      unfold check_sla
      rw [hdec, List.foldl_append, List.foldl_cons, hstep]
    have hn2 : breachNotified
        ((l1.foldl (checkSlaStep now1 admins) (hist, [])).1
            ++ [⟨t.id, "SLA breach notification sent", some "sla_breach_notified"⟩])
        t.id = true := by
      rw [breachNotified_append]
      simp [breachNotified]
    have hB := checkSla_foldl_notified now1 admins t.id l2
      ((l1.foldl (checkSlaStep now1 admins) (hist, [])).1
          ++ [⟨t.id, "SLA breach notification sent", some "sla_breach_notified"⟩])
      ((l1.foldl (checkSlaStep now1 admins) (hist, [])).2
          ++ [⟨t.id, slaRecipients admins t⟩]) hn2
    have hone : emailsFor t.id (check_sla now1 admins tickets hist).2 = 1 := by
      rw [hrun1, hB.2, emailsFor_append, hA.2]
      simp [emailsFor]
    refine ⟨hone, ?_⟩
    have hnotified : breachNotified (check_sla now1 admins tickets hist).1 t.id = true := by
      rw [hrun1]
      exact hB.1
    exact (checkSla_foldl_notified now2 admins t.id
      (tickets.filter (fun u => statusInCheckSlaFilter u.sla.status))
      (check_sla now1 admins tickets hist).1 [] hnotified).2

theorem C6_breach_alert_once_witness :
    emailsFor 1 (check_sla 100 ["admin@portal.com"]
        [⟨1, ⟨"Open", some 5, none⟩, none, none⟩] []).2 = 1
    ∧ emailsFor 1 (check_sla 200 ["admin@portal.com"]
        [⟨1, ⟨"Open", some 5, none⟩, none, none⟩]
        (check_sla 100 ["admin@portal.com"]
          [⟨1, ⟨"Open", some 5, none⟩, none, none⟩] []).1).2 = 0 := by
  have h := (C6_breach_alert_once 100 200 ["admin@portal.com"]
      [⟨1, ⟨"Open", some 5, none⟩, none, none⟩] [] [] []
      ⟨1, ⟨"Open", some 5, none⟩, none, none⟩).2.2
      (by decide)
      (fun u hu => absurd hu (List.not_mem_nil u))
      (fun u hu => absurd hu (List.not_mem_nil u))
      (by decide) (by decide) (by decide) rfl
  exact h

theorem C10_is_open_inverted_witness :
    is_open ⟨"Closed", none, none⟩ = true
    ∧ is_open ⟨"Open", none, none⟩ = false
    ∧ ⟨"Open", none, none⟩ ∈ get_open_tickets [⟨"Closed", none, none⟩, ⟨"Open", none, none⟩] := by
  have h1 := (C10_is_open_inverted ⟨"Closed", none, none⟩ []).2.1 (by decide)
  have h2 := (C10_is_open_inverted
      (⟨"Open", none, none⟩ : SlaTicket)
      [⟨"Closed", none, none⟩, ⟨"Open", none, none⟩]).2.2
  refine ⟨h1.mpr (Or.inl rfl), by decide, h2.mpr ⟨by decide, Or.inl rfl⟩⟩

end ITPortal
